import Mathlib

/-!
Shallow embedding of the tapalcatl-py tile server core (`src/server.py`).

Conventions of the embedding:
* Python unbounded integers are `Int` (tile coordinates can in principle go
  negative through arithmetic); sizes coming from configuration are `Nat`.
* `size_to_zoom` in the source is `math.log(size, 2)`; it is only ever used
  after the power-of-two checks succeed, where the logarithm is an exact
  integer, so it is embedded as `Nat.log2`.
* Python `raise ValueError(...)` becomes `Except String`, carrying the
  formatted message.
* Python `x >> n` / `x << n` on ints are floor division / multiplication by
  `2 ^ n` (`pyShr` / `pyShl`).
-/

namespace Tapalcatl

/-- TileRequest namedtuple: `TileRequest = namedtuple('TileRequest', ['z', 'x', 'y', 'format'])`. -/
structure TileRequest where
  z : Int
  x : Int
  y : Int
  format : String
deriving DecidableEq, Repr

/-- Source `is_power_of_two(num): return num and not num & (num - 1)`;
the Python truthiness of the result makes `0` count as "not a power of two". -/
def is_power_of_two (num : Nat) : Bool :=
  num != 0 && num &&& (num - 1) == 0

/-- Floor base-2 logarithm, computed by halving; the fuel argument (any bound
of at least the result, e.g. the input itself) keeps the recursion structural. -/
def size_to_zoom_fuel : Nat → Nat → Nat
  | 0, _ => 0
  | fuel + 1, n => if 2 ≤ n then size_to_zoom_fuel fuel (n / 2) + 1 else 0

/-- Source `size_to_zoom(size): return math.log(size, 2)`; it is only ever
called on power-of-two inputs (the checks in `meta_and_offset` run first),
where the real logarithm is exactly the integer floor base-2 logarithm. -/
def size_to_zoom (size : Nat) : Nat :=
  size_to_zoom_fuel size size

/-- Python `x >> n` for unbounded ints: arithmetic shift, i.e. floor division by `2 ^ n`. -/
def pyShr (x : Int) (n : Nat) : Int :=
  Int.fdiv x (2 ^ n)

/-- Python `x << n` for unbounded ints: multiplication by `2 ^ n`. -/
def pyShl (x : Int) (n : Nat) : Int :=
  x * 2 ^ n

/-- Embedding of `meta_and_offset(requested_tile, meta_size, tile_size,
metatile_max_detail_zoom=None)` from `src/server.py`.  The Python guard
`if metatile_max_detail_zoom and ...` tests truthiness, so `None` and `0`
both skip the max-detail-zoom clamping branch. -/
def meta_and_offset (requested_tile : TileRequest) (meta_size tile_size : Nat)
    (metatile_max_detail_zoom : Option Int) :
    Except String (TileRequest × TileRequest) :=
  if !is_power_of_two meta_size then
    .error ("Metatile size " ++ toString meta_size ++ " is not a power of two")
  else if !is_power_of_two tile_size then
    .error ("Tile size " ++ toString tile_size ++ " is not a power of two")
  else
    let meta_zoom := size_to_zoom meta_size
    let tile_zoom := size_to_zoom tile_size
    if tile_zoom > meta_zoom then
      .error ("Tile size must not be greater than metatile size, but " ++
        toString tile_size ++ " > " ++ toString meta_size ++ ".")
    else
      let delta_z : Int := (meta_zoom : Int) - (tile_zoom : Int)
      if requested_tile.z < delta_z then
        .ok (⟨0, 0, 0, "zip"⟩, ⟨0, 0, 0, requested_tile.format⟩)
      else
        let delta_z :=
          match metatile_max_detail_zoom with
          | some mdz =>
            if mdz ≠ 0 ∧ requested_tile.z - delta_z > mdz then
              min (requested_tile.z - mdz) (meta_zoom : Int)
            else delta_z
          | none => delta_z
        let meta : TileRequest :=
          ⟨requested_tile.z - delta_z,
           pyShr requested_tile.x delta_z.toNat,
           pyShr requested_tile.y delta_z.toNat,
           "zip"⟩
        let offset : TileRequest :=
          ⟨requested_tile.z - meta.z,
           requested_tile.x - pyShl meta.x delta_z.toNat,
           requested_tile.y - pyShl meta.y delta_z.toNat,
           requested_tile.format⟩
        .ok (meta, offset)

/-! ## MD5 (used by `compute_key` via `hashlib.md5(...).hexdigest()`)

A direct embedding of the MD5 algorithm (RFC 1321) over `Nat`, with 32-bit
arithmetic expressed as reduction modulo `2 ^ 32`. -/

/-- Bytes are modelled as natural numbers < 256. -/
abbrev Bytes := List Nat

/-- Truncate to a 32-bit word. -/
def w32 (x : Nat) : Nat := x % 4294967296

/-- Bitwise complement of a 32-bit word (for `x < 2 ^ 32` this is `~~~x`). -/
def w32not (x : Nat) : Nat := 4294967295 - x % 4294967296

/-- Rotate a 32-bit word left by `c` bits. -/
def rotl32 (x : Nat) (c : Nat) : Nat :=
  w32 (x * 2 ^ c) ||| x % 4294967296 / 2 ^ (32 - c)

/-- MD5 per-round shift amounts. -/
def md5ShiftTable : List Nat :=
  [7, 12, 17, 22, 7, 12, 17, 22, 7, 12, 17, 22, 7, 12, 17, 22,
   5, 9, 14, 20, 5, 9, 14, 20, 5, 9, 14, 20, 5, 9, 14, 20,
   4, 11, 16, 23, 4, 11, 16, 23, 4, 11, 16, 23, 4, 11, 16, 23,
   6, 10, 15, 21, 6, 10, 15, 21, 6, 10, 15, 21, 6, 10, 15, 21]

/-- MD5 sine-derived additive constants `K[i] = floor(2^32 * |sin(i + 1)|)`. -/
def md5SineTable : List Nat :=
  [0xd76aa478, 0xe8c7b756, 0x242070db, 0xc1bdceee,
   0xf57c0faf, 0x4787c62a, 0xa8304613, 0xfd469501,
   0x698098d8, 0x8b44f7af, 0xffff5bb1, 0x895cd7be,
   0x6b901122, 0xfd987193, 0xa679438e, 0x49b40821,
   0xf61e2562, 0xc040b340, 0x265e5a51, 0xe9b6c7aa,
   0xd62f105d, 0x02441453, 0xd8a1e681, 0xe7d3fbc8,
   0x21e1cde6, 0xc33707d6, 0xf4d50d87, 0x455a14ed,
   0xa9e3e905, 0xfcefa3f8, 0x676f02d9, 0x8d2a4c8a,
   0xfffa3942, 0x8771f681, 0x6d9d6122, 0xfde5380c,
   0xa4beea44, 0x4bdecfa9, 0xf6bb4b60, 0xbebfbc70,
   0x289b7ec6, 0xeaa127fa, 0xd4ef3085, 0x04881d05,
   0xd9d4d039, 0xe6db99e5, 0x1fa27cf8, 0xc4ac5665,
   0xf4292244, 0x432aff97, 0xab9423a7, 0xfc93a039,
   0x655b59c3, 0x8f0ccc92, 0xffeff47d, 0x85845dd1,
   0x6fa87e4f, 0xfe2ce6e0, 0xa3014314, 0x4e0811a1,
   0xf7537e82, 0xbd3af235, 0x2ad7d2bb, 0xeb86d391]

/-- The nonlinear function of MD5 round `i` applied to words `b c d`. -/
def md5F (i b c d : Nat) : Nat :=
  if i < 16 then b &&& c ||| w32not b &&& d
  else if i < 32 then d &&& b ||| w32not d &&& c
  else if i < 48 then b ^^^ c ^^^ d
  else c ^^^ (b ||| w32not d)

/-- The message-word index used in MD5 round `i`. -/
def md5G (i : Nat) : Nat :=
  if i < 16 then i
  else if i < 32 then (5 * i + 1) % 16
  else if i < 48 then (3 * i + 5) % 16
  else 7 * i % 16

/-- One MD5 round: state `(a, b, c, d)` and round index `i`, over message words `M`. -/
def md5Step (M : List Nat) (st : Nat × Nat × Nat × Nat) (i : Nat) :
    Nat × Nat × Nat × Nat :=
  let (a, b, c, d) := st
  let f := w32 (md5F i b c d + a + md5SineTable.getD i 0 + M.getD (md5G i) 0)
  (d, w32 (b + rotl32 f (md5ShiftTable.getD i 0)), b, c)

/-- Process one 512-bit chunk (given as 16 little-endian 32-bit words). -/
def md5Chunk (h : Nat × Nat × Nat × Nat) (M : List Nat) : Nat × Nat × Nat × Nat :=
  let (a, b, c, d) := (List.range 64).foldl (md5Step M) h
  (w32 (h.1 + a), w32 (h.2.1 + b), w32 (h.2.2.1 + c), w32 (h.2.2.2 + d))

/-- Group a byte list into little-endian 32-bit words, four bytes at a time. -/
def leWords : Bytes → List Nat
  | b0 :: b1 :: b2 :: b3 :: rest =>
    (b0 + 256 * b1 + 65536 * b2 + 16777216 * b3) :: leWords rest
  | _ => []

/-- Split a byte list into 64-byte chunks; the fuel argument (any bound of at
least the number of chunks, e.g. the list length) keeps recursion structural. -/
def chunks64 : Nat → Bytes → List Bytes
  | 0, _ => []
  | _, [] => []
  | fuel + 1, l => l.take 64 :: chunks64 fuel (l.drop 64)

/-- MD5 padding: append `0x80`, zero bytes to 56 mod 64, and the 64-bit
little-endian bit length. -/
def md5Pad (msg : Bytes) : Bytes :=
  let len := msg.length
  let padZeros := (119 - len % 64) % 64
  let bitLen := 8 * len
  msg ++ [128] ++ List.replicate padZeros 0 ++
    [bitLen % 256, bitLen / 256 % 256, bitLen / 65536 % 256,
     bitLen / 16777216 % 256, bitLen / 4294967296 % 256,
     bitLen / 1099511627776 % 256, bitLen / 281474976710656 % 256,
     bitLen / 72057594037927936 % 256]

/-- MD5 initial state. -/
def md5Init : Nat × Nat × Nat × Nat :=
  (0x67452301, 0xefcdab89, 0x98badcfe, 0x10325476)

/-- Serialize a 32-bit word to four little-endian bytes. -/
def leBytes4 (w : Nat) : Bytes :=
  [w % 256, w / 256 % 256, w / 65536 % 256, w / 16777216 % 256]

/-- The 16-byte MD5 digest of a byte sequence. -/
def md5Digest (msg : Bytes) : Bytes :=
  let padded := md5Pad msg
  let st := (chunks64 padded.length padded).foldl
    (fun h chunk => md5Chunk h (leWords chunk)) md5Init
  leBytes4 st.1 ++ leBytes4 st.2.1 ++ leBytes4 st.2.2.1 ++ leBytes4 st.2.2.2

/-- Lowercase hexadecimal digits. -/
def hexDigits : List Char := "0123456789abcdef".data

/-- The hex digit of `n % 16`. -/
def hexChar (n : Nat) : Char := hexDigits.getD (n % 16) '0'

/-- Two lowercase hex characters per byte, as in Python's `hexdigest()`. -/
def bytesToHex : Bytes → List Char
  | [] => []
  | b :: rest => hexChar (b / 16) :: hexChar b :: bytesToHex rest

/-- Python `hashlib.md5(bs).hexdigest()`. -/
def md5hex (bs : Bytes) : String := String.mk (bytesToHex (md5Digest bs))

/-- UTF-8 encoding of a string, Python's `s.encode('utf8')`. -/
def strBytes (s : String) : Bytes :=
  (s.data.flatMap String.utf8EncodeChar).map UInt8.toNat

/-- Embedding of `compute_key(prefix, layer, meta_tile, include_hash=True)` from
`src/server.py`.  The Python `prefix` argument is falsy when it is `None` or the
empty string; both are modelled by the empty string (parameter renamed to `pfx`). -/
def compute_key (pfx : String) (layer : String) (meta_tile : TileRequest)
    (include_hash : Bool) : String :=
  let k := "/" ++ layer ++ "/" ++ toString meta_tile.z ++ "/" ++
    toString meta_tile.x ++ "/" ++ toString meta_tile.y ++ "." ++ meta_tile.format
  let k := if include_hash then "/" ++ (md5hex (strBytes k)).take 5 ++ k else k
  let k := if pfx ≠ "" then "/" ++ pfx ++ k else k
  -- Strip off the leading slash
  k.drop 1

/-! ## Fetch pipeline (`metatile_fetch`, `extract_tile`, `retrieve_tile`)

External collaborators are modelled as data: the S3 client is a function from
request parameters to an outcome; the ZIP archive (read through the external
`zipfile` library) is modelled as the finite map from member name to member
bytes that its central directory denotes; the `cachetools.LFUCache` is modelled
as the key-value mapping it holds (frequency bookkeeping and eviction are the
library's, and `cache[meta] = result` is the map update).  Python exceptions
become an `Except` error type, and the mutated process-global cache becomes
explicit state passing: each operation returns its result together with the
cache as left behind. -/

/-- CacheInfo namedtuple: `CacheInfo = namedtuple('CacheInfo', ['last_modified', 'etag'])`.
Timestamps are opaque and modelled as `Nat`; a `datetime` value is always truthy
in Python, so presence of the `Option` models the source's truthiness tests. -/
structure CacheInfo where
  last_modified : Option Nat
  etag : Option String
deriving DecidableEq, Repr

/-- An archive: the member name to member bytes mapping of a metatile ZIP. -/
abbrev Archive := List (String × Bytes)

/-- StorageResponse namedtuple: `StorageResponse = namedtuple('StorageResponse', ['data', 'cache_info'])`.
Polymorphic in the payload: an `Archive` for fetched metatiles, raw `Bytes` for
extracted tiles. -/
structure StorageResponse (α : Type) where
  data : α
  cache_info : CacheInfo
deriving DecidableEq, Repr

/-- The exception types raised by the fetch/extract pipeline in `src/server.py`. -/
inductive TapError where
  | metatileNotModified
  | metatileNotFound (msg : String)
  | unknownMetatile (msg : String)
  | tileNotFoundInMetatile
deriving DecidableEq, Repr

/-- The in-memory metatile cache contents: metatile coordinate to stored object. -/
abbrev Cache := List (TileRequest × StorageResponse Archive)

/-- Cache read, `cache.get(meta)`. -/
def lookupCache (cache : Cache) (meta : TileRequest) : Option (StorageResponse Archive) :=
  List.lookup meta cache

/-- The parameters of the S3 `get_object` call assembled by `metatile_fetch`. -/
structure S3Params where
  bucket : String
  key : String
  ifModifiedSince : Option Nat
  ifNoneMatch : Option String
  requestPayer : Bool
deriving DecidableEq, Repr

/-- A successful S3 `get_object` response: body bytes (here: the archive they
denote), quoted entity tag, last-modified timestamp. -/
structure S3Object where
  body : Archive
  etag : String
  lastModified : Nat
deriving DecidableEq, Repr

/-- Outcome of the S3 call: a response, or a `botocore` client error with a code. -/
inductive S3Result where
  | ok (resp : S3Object)
  | clientError (code : String)
deriving DecidableEq, Repr

/-- The configuration values `metatile_fetch` reads from `current_app.config`.
`S3_PREFIX` is falsy when unset or empty, modelled by the empty string. -/
structure AppConfig where
  s3_prefix : String
  include_hash : Bool
  requester_pays : Bool
  s3_bucket : String
deriving Repr

/-- Embedding of `metatile_fetch(meta, cache_info)` from `src/server.py`.
A present cache entry is always truthy (`StorageResponse` is a two-field
namedtuple), so `if cached:` succeeds exactly on a cache hit.  The `s3`
argument is the object-store client; the returned cache is the cache state
after the call. -/
def metatile_fetch (cfg : AppConfig) (s3 : S3Params → S3Result) (cache : Cache)
    (meta : TileRequest) (cache_info : CacheInfo) :
    Except TapError (StorageResponse Archive) × Cache :=
  match lookupCache cache meta with
  | some cached => (.ok cached, cache)
  | none =>
    let s3_key := compute_key cfg.s3_prefix "all" meta cfg.include_hash
    let params : S3Params :=
      { bucket := cfg.s3_bucket
        key := s3_key
        ifModifiedSince := cache_info.last_modified
        ifNoneMatch :=
          match cache_info.etag with
          | some e => if e = "" then none else some e
          | none => none
        requestPayer := cfg.requester_pays }
    match s3 params with
    | .ok resp =>
      -- Strip the quotes that boto includes
      let result : StorageResponse Archive :=
        { data := resp.body
          cache_info :=
            { last_modified := some resp.lastModified
              etag := some ((resp.etag.drop 1).dropRight 1) } }
      (.ok result, (meta, result) :: cache)
    | .clientError error_code =>
      if error_code = "304" then
        (.error .metatileNotModified, cache)
      else if error_code = "NoSuchKey" then
        (.error (.metatileNotFound
          ("No tile found at s3://" ++ cfg.s3_bucket ++ "/" ++ s3_key)), cache)
      else
        (.error (.unknownMetatile
          (error_code ++ " at s3://" ++ cfg.s3_bucket ++ "/" ++ s3_key)), cache)

/-- Embedding of `extract_tile(metatile_bytes, offset)` from `src/server.py`:
read the archive member named `"<z>/<x>/<y>.<format>"`; a missing member
(`KeyError` from `zipfile`) becomes `TileNotFoundInMetatile`. -/
def extract_tile (metatile_data : Archive) (off : TileRequest) : Except TapError Bytes :=
  let offset_key := toString off.z ++ "/" ++ toString off.x ++ "/" ++
    toString off.y ++ "." ++ off.format
  match List.lookup offset_key metatile_data with
  | some bs => .ok bs
  | none => .error .tileNotFoundInMetatile

/-- Embedding of `retrieve_tile(meta, offset, cache_info)` from `src/server.py`:
fetch the metatile, extract the offset tile, and return it with the metatile's
freshness metadata. -/
def retrieve_tile (cfg : AppConfig) (s3 : S3Params → S3Result) (cache : Cache)
    (meta off : TileRequest) (cache_info : CacheInfo) :
    Except TapError (StorageResponse Bytes) × Cache :=
  match metatile_fetch cfg s3 cache meta cache_info with
  | (.error e, c2) => (.error e, c2)
  | (.ok metatile_data, c2) =>
    match extract_tile metatile_data.data off with
    | .error e => (.error e, c2)
    | .ok tile_data =>
      (.ok { data := tile_data
             cache_info :=
               { last_modified := metatile_data.cache_info.last_modified
                 etag := metatile_data.cache_info.etag } }, c2)

/-- The delta value of `meta_and_offset` as possibly updated by the
max-detail-zoom clamp, written as the specification describes it
(`Δ = min(requested.zoom - maxDetailZoom, log2(metatileSize))` when the clamp
applies, the plain `Δ = log2(metatileSize) - log2(tileSize)` otherwise);
here `a = log2(metatileSize)` and `b = log2(tileSize)`. -/
def clampedDelta (req : TileRequest) (a b : Nat) (mdz : Option Int) : Int :=
  let d : Int := (a : Int) - (b : Int)
  match mdz with
  | some m => if m ≠ 0 ∧ req.z - d > m then min (req.z - m) (a : Int) else d
  | none => d

/-! ## Helper lemmas -/

theorem size_to_zoom_fuel_pow (k : Nat) :
    ∀ fuel, 2 ^ k ≤ fuel → size_to_zoom_fuel fuel (2 ^ k) = k := by
  induction k with
  | zero =>
    intro fuel h
    cases fuel with
    | zero => norm_num at h
    | succ f => simp [size_to_zoom_fuel]
  | succ k ih =>
    intro fuel h
    have hlt : 2 ^ k < 2 ^ (k + 1) := Nat.pow_lt_pow_succ (by norm_num)
    have h2 : 2 ≤ 2 ^ (k + 1) := Nat.one_lt_two_pow (by omega)
    cases fuel with
    | zero => omega
    | succ f =>
      have hdiv : 2 ^ (k + 1) / 2 = 2 ^ k := by
        rw [Nat.pow_succ]
        exact Nat.mul_div_cancel _ (by norm_num)
      simp only [size_to_zoom_fuel, if_pos h2, hdiv]
      rw [ih f (by omega)]

theorem size_to_zoom_two_pow (k : Nat) : size_to_zoom (2 ^ k) = k :=
  size_to_zoom_fuel_pow k (2 ^ k) le_rfl

theorem is_power_of_two_iff (n : Nat) :
    is_power_of_two n = true ↔ ∃ k, n = 2 ^ k := by
  constructor
  · intro h
    obtain ⟨hne, hand⟩ : n ≠ 0 ∧ n &&& (n - 1) = 0 := by
      simpa [is_power_of_two] using h
    refine ⟨Nat.log 2 n, ?_⟩
    by_contra hne2
    set k := Nat.log 2 n with hk
    have h1 : 2 ^ k ≤ n := Nat.pow_log_le_self 2 hne
    have h2 : n < 2 ^ (k + 1) := Nat.lt_pow_succ_log_self (by norm_num) n
    have hgt : 2 ^ k < n := lt_of_le_of_ne h1 fun hEq => hne2 hEq.symm
    have h2' : n < 2 * 2 ^ k := by
      have : 2 ^ (k + 1) = 2 * 2 ^ k := by ring
      omega
    have hb1 : n.testBit k = true := by
      rw [Nat.testBit_to_div_mod]
      have hdiv : n / 2 ^ k = 1 :=
        Nat.div_eq_of_lt_le (by omega) (by omega)
      simp [hdiv]
    have hb2 : (n - 1).testBit k = true := by
      rw [Nat.testBit_to_div_mod]
      have hdiv : (n - 1) / 2 ^ k = 1 :=
        Nat.div_eq_of_lt_le (by omega) (by omega)
      simp [hdiv]
    have : (n &&& (n - 1)).testBit k = true := by
      rw [Nat.testBit_and, hb1, hb2]
      rfl
    rw [hand] at this
    simp [Nat.zero_testBit] at this
  · rintro ⟨k, rfl⟩
    have hne : (2 : Nat) ^ k ≠ 0 := (Nat.pos_pow_of_pos k (by norm_num)).ne'
    have hand : 2 ^ k &&& (2 ^ k - 1) = 0 := by
      apply Nat.eq_of_testBit_eq
      intro i
      rw [Nat.testBit_and, Nat.zero_testBit]
      rcases eq_or_ne i k with rfl | hik
      · rw [Nat.testBit_two_pow_sub_one]
        simp
      · rw [Nat.testBit_two_pow_of_ne (Ne.symm hik)]
        rfl
    simp [is_power_of_two, hne, hand]

theorem is_power_of_two_two_pow (k : Nat) : is_power_of_two (2 ^ k) = true :=
  (is_power_of_two_iff _).mpr ⟨k, rfl⟩

theorem sub_shl_shr_bounds (x : Int) (n : Nat) :
    0 ≤ x - pyShl (pyShr x n) n ∧ x - pyShl (pyShr x n) n < 2 ^ n := by
  have hpos : (0 : Int) < 2 ^ n := by positivity
  unfold pyShl pyShr
  rw [Int.fdiv_eq_ediv x (le_of_lt hpos)]
  have h1 : x - x / 2 ^ n * 2 ^ n = x % 2 ^ n := by
    rw [Int.emod_def]; ring
  rw [h1]
  exact ⟨Int.emod_nonneg _ (ne_of_gt hpos), Int.emod_lt_of_pos _ hpos⟩

theorem meta_and_offset_main_eq (req : TileRequest) (a b : Nat) (mdz : Option Int)
    (hba : b ≤ a) (hz : (a : Int) - (b : Int) ≤ req.z) :
    meta_and_offset req (2 ^ a) (2 ^ b) mdz =
      .ok (⟨req.z - clampedDelta req a b mdz,
            pyShr req.x (clampedDelta req a b mdz).toNat,
            pyShr req.y (clampedDelta req a b mdz).toNat, "zip"⟩,
           ⟨req.z - (req.z - clampedDelta req a b mdz),
            req.x - pyShl (pyShr req.x (clampedDelta req a b mdz).toNat)
              (clampedDelta req a b mdz).toNat,
            req.y - pyShl (pyShr req.y (clampedDelta req a b mdz).toNat)
              (clampedDelta req a b mdz).toNat,
            req.format⟩) := by
  unfold meta_and_offset clampedDelta
  simp only [is_power_of_two_two_pow, Bool.not_true, Bool.false_eq_true, if_false,
    size_to_zoom_two_pow]
  rw [if_neg (by omega : ¬ b > a), if_neg (by omega : ¬ req.z < (a : Int) - (b : Int))]

theorem meta_and_offset_low_zoom (req : TileRequest) (a b : Nat) (mdz : Option Int)
    (hba : b ≤ a) (hz : req.z < (a : Int) - (b : Int)) :
    meta_and_offset req (2 ^ a) (2 ^ b) mdz =
      .ok (⟨0, 0, 0, "zip"⟩, ⟨0, 0, 0, req.format⟩) := by
  unfold meta_and_offset
  simp only [is_power_of_two_two_pow, Bool.not_true, Bool.false_eq_true, if_false,
    size_to_zoom_two_pow]
  rw [if_neg (by omega : ¬ b > a), if_pos hz]

theorem clampedDelta_nonneg (req : TileRequest) (a b : Nat) (mdz : Option Int)
    (hba : b ≤ a) : 0 ≤ clampedDelta req a b mdz := by
  unfold clampedDelta
  cases mdz with
  | none => simp; omega
  | some m =>
    dsimp only
    split
    · next h => omega
    · omega

theorem clampedDelta_of_no_clamp (req : TileRequest) (a b : Nat) (mdz : Option Int)
    (hnoclamp : ∀ m, mdz = some m → m = 0 ∨ req.z - ((a : Int) - (b : Int)) ≤ m) :
    clampedDelta req a b mdz = (a : Int) - (b : Int) := by
  unfold clampedDelta
  cases mdz with
  | none => rfl
  | some m =>
    dsimp only
    rw [if_neg]
    rintro ⟨hm, hgt⟩
    rcases hnoclamp m rfl with h | h
    · exact hm h
    · omega

/-! ## Claim theorems: tile addressing -/

/-- C1: For every pair of powers of two `metatileSize = 2 ^ a ≥ tileSize = 2 ^ b`
and every requested tile with `zoom ≥ Δ` (`Δ = a - b`) and no max-detail-zoom
clamp applying, the pair `(meta, offset)` returned by `meta_and_offset`
reconstructs the request exactly: `zoom = meta.z + offset.z`,
`x = (meta.x <<< Δ) + offset.x`, `y = (meta.y <<< Δ) + offset.y`. -/
theorem C1_round_trip (req : TileRequest) (a b : Nat) (mdz : Option Int)
    (hba : b ≤ a) (hz : (a : Int) - (b : Int) ≤ req.z)
    (hnoclamp : ∀ m, mdz = some m → m = 0 ∨ req.z - ((a : Int) - (b : Int)) ≤ m)
    (meta off : TileRequest)
    (hok : meta_and_offset req (2 ^ a) (2 ^ b) mdz = .ok (meta, off)) :
    req.z = meta.z + off.z ∧
    req.x = pyShl meta.x (a - b) + off.x ∧
    req.y = pyShl meta.y (a - b) + off.y := by
  rw [meta_and_offset_main_eq req a b mdz hba hz,
    clampedDelta_of_no_clamp req a b mdz hnoclamp] at hok
  have htn : ((a : Int) - (b : Int)).toNat = a - b := by omega
  rw [htn] at hok
  injection hok with h
  injection h with h1 h2
  subst h1
  subst h2
  refine ⟨by dsimp; ring, by dsimp; ring, by dsimp; ring⟩

/-- Witness for C1 at the spec's end-to-end example: `metatileSize = 8`,
`tileSize = 1`, request `(5, 10, 12, "mvt")` resolving to meta `(2, 1, 1, "zip")`
and offset `(3, 2, 4, "mvt")`. -/
theorem C1_witness :
    (0 : Nat) ≤ 3 ∧ ((3 : Int) - (0 : Int) ≤ (5 : Int)) ∧
    meta_and_offset ⟨5, 10, 12, "mvt"⟩ (2 ^ 3) (2 ^ 0) none =
      .ok (⟨2, 1, 1, "zip"⟩, ⟨3, 2, 4, "mvt"⟩) ∧
    ((5 : Int) = 2 + 3 ∧ (10 : Int) = pyShl 1 (3 - 0) + 2 ∧
      (12 : Int) = pyShl 1 (3 - 0) + 4) :=
  ⟨by decide, by decide, by rfl,
   C1_round_trip ⟨5, 10, 12, "mvt"⟩ 3 0 none (by decide) (by decide)
     (fun m h => by cases h) ⟨2, 1, 1, "zip"⟩ ⟨3, 2, 4, "mvt"⟩ (by rfl)⟩

/-- C3: For every requested tile with `zoom < Δ`, `meta_and_offset` returns the
root metatile `(0, 0, 0, "zip")` and offset `(0, 0, 0, requested.format)`,
regardless of the max-detail-zoom setting. -/
theorem C3_root_metatile (req : TileRequest) (a b : Nat) (mdz : Option Int)
    (hba : b ≤ a) (hz : req.z < (a : Int) - (b : Int)) :
    meta_and_offset req (2 ^ a) (2 ^ b) mdz =
      .ok (⟨0, 0, 0, "zip"⟩, ⟨0, 0, 0, req.format⟩) :=
  meta_and_offset_low_zoom req a b mdz hba hz

/-- Witness for C3: zoom 1 below `Δ = 3`, with a max-detail-zoom set. -/
theorem C3_witness :
    (0 : Nat) ≤ 3 ∧ ((1 : Int) < (3 : Int) - (0 : Int)) ∧
    meta_and_offset ⟨1, 3, 2, "json"⟩ (2 ^ 3) (2 ^ 0) (some 5) =
      .ok (⟨0, 0, 0, "zip"⟩, ⟨0, 0, 0, "json"⟩) :=
  ⟨by decide, by decide,
   C3_root_metatile ⟨1, 3, 2, "json"⟩ 3 0 (some 5) (by decide) (by decide)⟩

/-- C4: When the max-detail-zoom is set (a truthy, i.e. nonzero, value `m`) and
`zoom - Δ > m` (with `zoom ≥` the original `Δ = a - b`), `meta_and_offset`
replaces `Δ` by `min(zoom - m, log2(metatileSize)) = min(zoom - m, a)` before
computing meta and offset. -/
theorem C4_clamp (req : TileRequest) (a b : Nat) (m : Int)
    (hba : b ≤ a) (hz : (a : Int) - (b : Int) ≤ req.z)
    (hm : m ≠ 0) (hgt : req.z - ((a : Int) - (b : Int)) > m) :
    meta_and_offset req (2 ^ a) (2 ^ b) (some m) =
      .ok (⟨req.z - min (req.z - m) (a : Int),
            pyShr req.x (min (req.z - m) (a : Int)).toNat,
            pyShr req.y (min (req.z - m) (a : Int)).toNat, "zip"⟩,
           ⟨req.z - (req.z - min (req.z - m) (a : Int)),
            req.x - pyShl (pyShr req.x (min (req.z - m) (a : Int)).toNat)
              (min (req.z - m) (a : Int)).toNat,
            req.y - pyShl (pyShr req.y (min (req.z - m) (a : Int)).toNat)
              (min (req.z - m) (a : Int)).toNat,
            req.format⟩) := by
  have hc : clampedDelta req a b (some m) = min (req.z - m) (a : Int) := by
    unfold clampedDelta
    dsimp only
    rw [if_pos ⟨hm, hgt⟩]
  rw [meta_and_offset_main_eq req a b (some m) hba hz, hc]

/-- Witness for C4: `metatileSize = 8`, `tileSize = 2`, max-detail-zoom 1,
request `(5, 10, 12, "mvt")`; the clamp raises `Δ` from 2 to `min(4, 3) = 3`. -/
theorem C4_witness :
    (1 : Nat) ≤ 3 ∧ ((3 : Int) - (1 : Int) ≤ (5 : Int)) ∧ ((1 : Int) ≠ 0) ∧
    ((5 : Int) - ((3 : Int) - (1 : Int)) > 1) ∧
    meta_and_offset ⟨5, 10, 12, "mvt"⟩ (2 ^ 3) (2 ^ 1) (some 1) =
      .ok (⟨5 - min ((5 : Int) - 1) 3,
            pyShr 10 (min ((5 : Int) - 1) 3).toNat,
            pyShr 12 (min ((5 : Int) - 1) 3).toNat, "zip"⟩,
           ⟨5 - (5 - min ((5 : Int) - 1) 3),
            10 - pyShl (pyShr 10 (min ((5 : Int) - 1) 3).toNat)
              (min ((5 : Int) - 1) 3).toNat,
            12 - pyShl (pyShr 12 (min ((5 : Int) - 1) 3).toNat)
              (min ((5 : Int) - 1) 3).toNat,
            "mvt"⟩) :=
  ⟨by decide, by decide, by decide, by decide,
   C4_clamp ⟨5, 10, 12, "mvt"⟩ 3 1 1 (by decide) (by decide) (by decide) (by decide)⟩

/-- C5: For every valid configuration (both sizes powers of two,
`tileSize = 2 ^ b ≤ metatileSize = 2 ^ a`), the offset coordinate returned by
`meta_and_offset` satisfies `0 ≤ offset.z ≤ Δ` (`Δ` as possibly updated by the
max-detail-zoom clamp, `clampedDelta`) and `0 ≤ offset.x, offset.y < 2 ^ offset.z`.
The embedded function is pure, so it has no side effects. -/
theorem C5_offset_bounds (req : TileRequest) (a b : Nat) (mdz : Option Int)
    (hba : b ≤ a) (meta off : TileRequest)
    (hok : meta_and_offset req (2 ^ a) (2 ^ b) mdz = .ok (meta, off)) :
    0 ≤ off.z ∧ off.z ≤ clampedDelta req a b mdz ∧
    0 ≤ off.x ∧ off.x < 2 ^ off.z.toNat ∧
    0 ≤ off.y ∧ off.y < 2 ^ off.z.toNat := by
  by_cases hzlt : req.z < (a : Int) - (b : Int)
  · rw [meta_and_offset_low_zoom req a b mdz hba hzlt] at hok
    injection hok with h
    injection h with h1 h2
    subst h2
    exact ⟨le_refl 0, clampedDelta_nonneg req a b mdz hba, le_refl 0, by norm_num,
      le_refl 0, by norm_num⟩
  · push_neg at hzlt
    rw [meta_and_offset_main_eq req a b mdz hba hzlt] at hok
    injection hok with h
    injection h with h1 h2
    subst h2
    have hdnn : 0 ≤ clampedDelta req a b mdz := clampedDelta_nonneg req a b mdz hba
    have hzz : req.z - (req.z - clampedDelta req a b mdz) = clampedDelta req a b mdz := by
      ring
    dsimp only
    rw [hzz]
    have hx := sub_shl_shr_bounds req.x (clampedDelta req a b mdz).toNat
    have hy := sub_shl_shr_bounds req.y (clampedDelta req a b mdz).toNat
    exact ⟨hdnn, le_rfl, hx.1, hx.2, hy.1, hy.2⟩

/-- Witness for C5 at the spec's end-to-end example. -/
theorem C5_witness :
    (0 : Nat) ≤ 3 ∧
    meta_and_offset ⟨5, 10, 12, "mvt"⟩ (2 ^ 3) (2 ^ 0) none =
      .ok (⟨2, 1, 1, "zip"⟩, ⟨3, 2, 4, "mvt"⟩) ∧
    (0 ≤ (3 : Int) ∧ (3 : Int) ≤ clampedDelta ⟨5, 10, 12, "mvt"⟩ 3 0 none ∧
     0 ≤ (2 : Int) ∧ (2 : Int) < 2 ^ (3 : Int).toNat ∧
     0 ≤ (4 : Int) ∧ (4 : Int) < 2 ^ (3 : Int).toNat) :=
  ⟨by decide, by rfl,
   C5_offset_bounds ⟨5, 10, 12, "mvt"⟩ 3 0 none (by decide) ⟨2, 1, 1, "zip"⟩
     ⟨3, 2, 4, "mvt"⟩ (by rfl)⟩

/-- C9: `meta_and_offset` fails with a configuration error exactly when the
metatile size is not a power of two, or the tile size is not a power of two, or
the tile size exceeds the metatile size; for all other size inputs it returns a
coordinate pair. -/
theorem C9_config_errors (req : TileRequest) (ms ts : Nat) (mdz : Option Int) :
    (∃ e, meta_and_offset req ms ts mdz = .error e) ↔
      (¬ ∃ k, ms = 2 ^ k) ∨ (¬ ∃ k, ts = 2 ^ k) ∨ ms < ts := by
  by_cases hms : is_power_of_two ms = true
  case neg =>
    have hms' : is_power_of_two ms = false := by
      simpa using hms
    constructor
    · intro _
      exact Or.inl fun h => hms ((is_power_of_two_iff ms).mpr h)
    · intro _
      exact ⟨"Metatile size " ++ toString ms ++ " is not a power of two",
        by simp [meta_and_offset, hms']⟩
  case pos =>
    by_cases hts : is_power_of_two ts = true
    case neg =>
      have hts' : is_power_of_two ts = false := by
        simpa using hts
      constructor
      · intro _
        exact Or.inr (Or.inl fun h => hts ((is_power_of_two_iff ts).mpr h))
      · intro _
        exact ⟨"Tile size " ++ toString ts ++ " is not a power of two",
          by simp [meta_and_offset, hms, hts']⟩
    case pos =>
      obtain ⟨A, rfl⟩ := (is_power_of_two_iff ms).mp hms
      obtain ⟨B, rfl⟩ := (is_power_of_two_iff ts).mp hts
      by_cases hab : B > A
      case pos =>
        constructor
        · intro _
          exact Or.inr (Or.inr ((Nat.pow_lt_pow_iff_right (by norm_num)).mpr hab))
        · intro _
          refine ⟨"Tile size must not be greater than metatile size, but " ++
            toString (2 ^ B) ++ " > " ++ toString (2 ^ A) ++ ".", ?_⟩
          unfold meta_and_offset
          simp only [is_power_of_two_two_pow, Bool.not_true, Bool.false_eq_true, if_false,
            size_to_zoom_two_pow]
          rw [if_pos hab]
      case neg =>
        constructor
        · rintro ⟨e, he⟩
          unfold meta_and_offset at he
          simp only [is_power_of_two_two_pow, Bool.not_true, Bool.false_eq_true, if_false,
            size_to_zoom_two_pow] at he
          rw [if_neg hab] at he
          split at he
          · exact absurd he (by simp)
          · exact absurd he (by simp)
        · rintro (h | h | h)
          · exact absurd ⟨A, rfl⟩ h
          · exact absurd ⟨B, rfl⟩ h
          · exact (hab ((Nat.pow_lt_pow_iff_right (by norm_num)).mp h)).elim

/-- C10: A configured `metatile_max_detail_zoom` of 0 is falsy in the source's
truthiness guard, so it behaves exactly like an unset max-detail-zoom: the
clamp is never applied. -/
theorem C10_zero_max_detail (req : TileRequest) (ms ts : Nat) :
    meta_and_offset req ms ts (some 0) = meta_and_offset req ms ts none := by
  unfold meta_and_offset
  dsimp only
  simp only [ne_eq, not_true_eq_false, false_and, if_false]

/-! ## Claim theorems: fetch pipeline -/

/-- C6: If the metatile coordinate is present in the cache, `metatile_fetch`
returns the cached stored object as-is — for every value of the caller's
freshness hints and every behaviour of the object store (both are universally
quantified and absent from the conclusion, so two runs with different request
freshness but the same cache state return the same object, and no object-store
call can influence the result) — and leaves the cache unchanged. -/
theorem C6_cache_hit_ignores_freshness (cfg : AppConfig) (cache : Cache)
    (meta : TileRequest) (r : StorageResponse Archive)
    (hhit : lookupCache cache meta = some r)
    (s3 : S3Params → S3Result) (ci : CacheInfo) :
    metatile_fetch cfg s3 cache meta ci = (.ok r, cache) := by
  unfold metatile_fetch
  rw [hhit]

/-- Witness for C6: a one-entry cache served identically under two different
freshness hints and two different (error-throwing) backends. -/
theorem C6_witness :
    lookupCache [(⟨0, 0, 0, "zip"⟩, ⟨[("0/0/0.json", [1, 2, 3])], ⟨some 7, some "abc"⟩⟩)]
      ⟨0, 0, 0, "zip"⟩ = some ⟨[("0/0/0.json", [1, 2, 3])], ⟨some 7, some "abc"⟩⟩ ∧
    metatile_fetch ⟨"", false, false, "bucket"⟩ (fun _ => .clientError "500")
      [(⟨0, 0, 0, "zip"⟩, ⟨[("0/0/0.json", [1, 2, 3])], ⟨some 7, some "abc"⟩⟩)]
      ⟨0, 0, 0, "zip"⟩ ⟨none, none⟩ =
      (.ok ⟨[("0/0/0.json", [1, 2, 3])], ⟨some 7, some "abc"⟩⟩,
       [(⟨0, 0, 0, "zip"⟩, ⟨[("0/0/0.json", [1, 2, 3])], ⟨some 7, some "abc"⟩⟩)]) ∧
    metatile_fetch ⟨"", false, false, "bucket"⟩ (fun _ => .clientError "304")
      [(⟨0, 0, 0, "zip"⟩, ⟨[("0/0/0.json", [1, 2, 3])], ⟨some 7, some "abc"⟩⟩)]
      ⟨0, 0, 0, "zip"⟩ ⟨some 1, some "etag"⟩ =
      (.ok ⟨[("0/0/0.json", [1, 2, 3])], ⟨some 7, some "abc"⟩⟩,
       [(⟨0, 0, 0, "zip"⟩, ⟨[("0/0/0.json", [1, 2, 3])], ⟨some 7, some "abc"⟩⟩)]) :=
  ⟨by rfl,
   C6_cache_hit_ignores_freshness ⟨"", false, false, "bucket"⟩ _ ⟨0, 0, 0, "zip"⟩ _
     (by rfl) (fun _ => .clientError "500") ⟨none, none⟩,
   C6_cache_hit_ignores_freshness ⟨"", false, false, "bucket"⟩ _ ⟨0, 0, 0, "zip"⟩ _
     (by rfl) (fun _ => .clientError "304") ⟨some 1, some "etag"⟩⟩

/-- C2: On a cache miss with a failing fetch, the service maps backend outcomes
to typed failures: backend code "304" yields `MetatileNotModifiedException` and
leaves the cache unchanged (no entry inserted); "NoSuchKey" yields
`MetatileNotFoundException`; any other backend error yields the unknown-fetch
failure `UnknownMetatileException`; and an archive lacking the resolved offset
entry makes `extract_tile` fail with `TileNotFoundInMetatile`. -/
theorem C2_error_mapping (cfg : AppConfig) (cache : Cache) (meta : TileRequest)
    (ci : CacheInfo) (s3 : S3Params → S3Result) (code : String)
    (hmiss : lookupCache cache meta = none)
    (hs3 : ∀ p, s3 p = .clientError code) :
    (code = "304" →
      metatile_fetch cfg s3 cache meta ci = (.error .metatileNotModified, cache)) ∧
    (code = "NoSuchKey" →
      metatile_fetch cfg s3 cache meta ci =
        (.error (.metatileNotFound ("No tile found at s3://" ++ cfg.s3_bucket ++ "/" ++
          compute_key cfg.s3_prefix "all" meta cfg.include_hash)), cache)) ∧
    (code ≠ "304" → code ≠ "NoSuchKey" →
      metatile_fetch cfg s3 cache meta ci =
        (.error (.unknownMetatile (code ++ " at s3://" ++ cfg.s3_bucket ++ "/" ++
          compute_key cfg.s3_prefix "all" meta cfg.include_hash)), cache)) ∧
    (∀ (ar : Archive) (off : TileRequest),
      List.lookup (toString off.z ++ "/" ++ toString off.x ++ "/" ++ toString off.y ++
        "." ++ off.format) ar = none →
      extract_tile ar off = .error .tileNotFoundInMetatile) := by
  have hbase : ∀ c : String, (∀ p, s3 p = .clientError c) →
      metatile_fetch cfg s3 cache meta ci =
        (if c = "304" then (.error .metatileNotModified, cache)
         else if c = "NoSuchKey" then
           (.error (.metatileNotFound ("No tile found at s3://" ++ cfg.s3_bucket ++ "/" ++
             compute_key cfg.s3_prefix "all" meta cfg.include_hash)), cache)
         else
           (.error (.unknownMetatile (c ++ " at s3://" ++ cfg.s3_bucket ++ "/" ++
             compute_key cfg.s3_prefix "all" meta cfg.include_hash)), cache)) := by
    intro c hc
    unfold metatile_fetch
    rw [hmiss]
    dsimp only
    rw [hc]
  refine ⟨?_, ?_, ?_, ?_⟩
  · intro h
    subst h
    rw [hbase "304" hs3]
    simp
  · intro h
    subst h
    rw [hbase "NoSuchKey" hs3]
    simp
  · intro h1 h2
    rw [hbase code hs3]
    rw [if_neg h1, if_neg h2]
  · intro ar off hlook
    unfold extract_tile
    dsimp only
    rw [hlook]

/-- Witness for C2: empty cache, a backend that always reports code "304". -/
theorem C2_witness :
    lookupCache [] ⟨2, 1, 1, "zip"⟩ = none ∧
    (∀ p, (fun _ : S3Params => S3Result.clientError "304") p = .clientError "304") ∧
    ((("304" : String) = "304") →
      metatile_fetch ⟨"", false, false, "bucket"⟩ (fun _ => .clientError "304") []
        ⟨2, 1, 1, "zip"⟩ ⟨none, none⟩ = (.error .metatileNotModified, [])) :=
  ⟨by rfl, fun _ => rfl,
   ((C2_error_mapping ⟨"", false, false, "bucket"⟩ [] ⟨2, 1, 1, "zip"⟩ ⟨none, none⟩
     (fun _ => .clientError "304") "304" (by rfl) (fun _ => rfl)).1)⟩

/-- C7: On the success path, `retrieve_tile` returns exactly the bytes of the
archive entry named `"<offset.z>/<offset.x>/<offset.y>.<offset.format>"` from
the fetched metatile's data, paired with freshness metadata equal to the
metatile's own freshness metadata. -/
theorem C7_success_extraction (cfg : AppConfig) (s3 : S3Params → S3Result)
    (cache c2 : Cache) (meta off : TileRequest) (ci : CacheInfo)
    (md : StorageResponse Archive) (tile : Bytes)
    (hfetch : metatile_fetch cfg s3 cache meta ci = (.ok md, c2))
    (hentry : List.lookup (toString off.z ++ "/" ++ toString off.x ++ "/" ++
      toString off.y ++ "." ++ off.format) md.data = some tile) :
    retrieve_tile cfg s3 cache meta off ci =
      (.ok { data := tile, cache_info := md.cache_info }, c2) := by
  unfold retrieve_tile
  rw [hfetch]
  dsimp only
  unfold extract_tile
  dsimp only
  rw [hentry]

/-- Witness for C7: a cached metatile whose archive holds entry "2/1/1.json". -/
theorem C7_witness :
    metatile_fetch ⟨"", false, false, "bucket"⟩ (fun _ => .clientError "500")
      [(⟨0, 1, 1, "zip"⟩, ⟨[("2/1/1.json", [9, 8, 7])], ⟨some 3, some "tag"⟩⟩)]
      ⟨0, 1, 1, "zip"⟩ ⟨none, none⟩ =
      (.ok ⟨[("2/1/1.json", [9, 8, 7])], ⟨some 3, some "tag"⟩⟩,
       [(⟨0, 1, 1, "zip"⟩, ⟨[("2/1/1.json", [9, 8, 7])], ⟨some 3, some "tag"⟩⟩)]) ∧
    List.lookup (toString (2 : Int) ++ "/" ++ toString (1 : Int) ++ "/" ++
        toString (1 : Int) ++ "." ++ "json") [("2/1/1.json", [9, 8, 7])] =
      some [9, 8, 7] ∧
    retrieve_tile ⟨"", false, false, "bucket"⟩ (fun _ => .clientError "500")
      [(⟨0, 1, 1, "zip"⟩, ⟨[("2/1/1.json", [9, 8, 7])], ⟨some 3, some "tag"⟩⟩)]
      ⟨0, 1, 1, "zip"⟩ ⟨2, 1, 1, "json"⟩ ⟨none, none⟩ =
      (.ok ⟨[9, 8, 7], ⟨some 3, some "tag"⟩⟩,
       [(⟨0, 1, 1, "zip"⟩, ⟨[("2/1/1.json", [9, 8, 7])], ⟨some 3, some "tag"⟩⟩)]) :=
  ⟨by rfl, by rfl,
   C7_success_extraction ⟨"", false, false, "bucket"⟩ (fun _ => .clientError "500")
     _ _ ⟨0, 1, 1, "zip"⟩ ⟨2, 1, 1, "json"⟩ ⟨none, none⟩
     ⟨[("2/1/1.json", [9, 8, 7])], ⟨some 3, some "tag"⟩⟩ [9, 8, 7] (by rfl) (by rfl)⟩

/-! ## Claim theorems: key construction -/

theorem str_data_ext (s t : String) (h : s.data = t.data) : s = t := by
  cases s
  cases t
  exact congrArg String.mk h

theorem leBytes4_length (w : Nat) : (leBytes4 w).length = 4 := rfl

theorem md5Digest_length (msg : Bytes) : (md5Digest msg).length = 16 := by
  unfold md5Digest
  simp [leBytes4_length]

theorem hexChar_mem (n : Nat) : hexChar n ∈ hexDigits := by
  unfold hexChar
  have h : n % 16 < hexDigits.length := by
    have h16 : hexDigits.length = 16 := rfl
    have hm : n % 16 < 16 := Nat.mod_lt _ (by norm_num)
    omega
  rw [List.getD_eq_getElem _ _ h]
  exact List.getElem_mem h

theorem bytesToHex_mem (l : Bytes) : ∀ c ∈ bytesToHex l, c ∈ hexDigits := by
  induction l with
  | nil =>
    intro c hc
    simp [bytesToHex] at hc
  | cons b rest ih =>
    intro c hc
    simp only [bytesToHex, List.mem_cons] at hc
    rcases hc with rfl | rfl | hc
    · exact hexChar_mem _
    · exact hexChar_mem _
    · exact ih c hc

theorem bytesToHex_length (l : Bytes) : (bytesToHex l).length = 2 * l.length := by
  induction l with
  | nil => rfl
  | cons b rest ih =>
    simp only [bytesToHex, List.length_cons, ih]
    omega

theorem string_length_data (s : String) : s.length = s.data.length := rfl

theorem md5hex_data (bs : Bytes) : (md5hex bs).data = bytesToHex (md5Digest bs) := rfl

theorem md5hex_take5_length (bs : Bytes) : ((md5hex bs).take 5).length = 5 := by
  rw [string_length_data, String.data_take, List.length_take, md5hex_data,
    bytesToHex_length, md5Digest_length]
  norm_num

theorem md5hex_take5_hex (bs : Bytes) :
    ∀ c ∈ ((md5hex bs).take 5).data, c ∈ hexDigits := by
  intro c hc
  rw [String.data_take, md5hex_data] at hc
  exact bytesToHex_mem _ c (List.mem_of_mem_take hc)

/-- C8: `compute_key` returns `"<layer>/<z>/<x>/<y>.<format>"`; with
`include_hash` it prepends, as its own path segment, the first 5 characters of
the MD5 hexdigest of the slash-prefixed path (5 lowercase hex characters); a
non-empty prefix is prepended as a leading path segment while an empty prefix
adds no segment; the leading separator is stripped from the final result.  The
embedded function is deterministic by construction (it is a pure function). -/
theorem C8_compute_key (pfx layer : String) (mt : TileRequest) :
    compute_key "" layer mt false =
      layer ++ "/" ++ toString mt.z ++ "/" ++ toString mt.x ++ "/" ++
        toString mt.y ++ "." ++ mt.format ∧
    compute_key "" layer mt true =
      (md5hex (strBytes ("/" ++ layer ++ "/" ++ toString mt.z ++ "/" ++
          toString mt.x ++ "/" ++ toString mt.y ++ "." ++ mt.format))).take 5 ++
        "/" ++ layer ++ "/" ++ toString mt.z ++ "/" ++ toString mt.x ++ "/" ++
        toString mt.y ++ "." ++ mt.format ∧
    (pfx ≠ "" →
      compute_key pfx layer mt false =
        pfx ++ "/" ++ layer ++ "/" ++ toString mt.z ++ "/" ++ toString mt.x ++
          "/" ++ toString mt.y ++ "." ++ mt.format ∧
      compute_key pfx layer mt true =
        pfx ++ "/" ++ (md5hex (strBytes ("/" ++ layer ++ "/" ++ toString mt.z ++
            "/" ++ toString mt.x ++ "/" ++ toString mt.y ++ "." ++ mt.format))).take 5 ++
          "/" ++ layer ++ "/" ++ toString mt.z ++ "/" ++ toString mt.x ++ "/" ++
          toString mt.y ++ "." ++ mt.format) ∧
    ((md5hex (strBytes ("/" ++ layer ++ "/" ++ toString mt.z ++ "/" ++
        toString mt.x ++ "/" ++ toString mt.y ++ "." ++ mt.format))).take 5).length = 5 ∧
    (∀ c ∈ ((md5hex (strBytes ("/" ++ layer ++ "/" ++ toString mt.z ++ "/" ++
        toString mt.x ++ "/" ++ toString mt.y ++ "." ++ mt.format))).take 5).data,
      c ∈ hexDigits) := by
  refine ⟨?_, ?_, fun hne => ⟨?_, ?_⟩, md5hex_take5_length _, md5hex_take5_hex _⟩
  · apply str_data_ext
    simp [compute_key, String.data_drop, String.data_append]
  · apply str_data_ext
    simp [compute_key, String.data_drop, String.data_append]
  · apply str_data_ext
    simp [compute_key, hne, String.data_drop, String.data_append]
  · apply str_data_ext
    simp [compute_key, hne, String.data_drop, String.data_append]

/-- Witness for C8 at `prefix = "tiles"`, `layer = "all"`, meta `(2, 1, 1, "zip")`. -/
theorem C8_witness :
    (("tiles" : String) ≠ "") ∧
    (compute_key "tiles" "all" ⟨2, 1, 1, "zip"⟩ false =
      "tiles" ++ "/" ++ "all" ++ "/" ++ toString (2 : Int) ++ "/" ++
        toString (1 : Int) ++ "/" ++ toString (1 : Int) ++ "." ++ "zip" ∧
     compute_key "tiles" "all" ⟨2, 1, 1, "zip"⟩ true =
      "tiles" ++ "/" ++ (md5hex (strBytes ("/" ++ "all" ++ "/" ++ toString (2 : Int) ++
          "/" ++ toString (1 : Int) ++ "/" ++ toString (1 : Int) ++ "." ++ "zip"))).take 5 ++
        "/" ++ "all" ++ "/" ++ toString (2 : Int) ++ "/" ++ toString (1 : Int) ++ "/" ++
        toString (1 : Int) ++ "." ++ "zip") :=
  ⟨by decide, (C8_compute_key "tiles" "all" ⟨2, 1, 1, "zip"⟩).2.2.1 (by decide)⟩

end Tapalcatl
